import Mathlib

/-!
Shallow embedding of the routing core of `steam-audio-isolator`
(`steam_pipewire/pipewire/controller.py` and
`steam_pipewire/pipewire/source_detector.py`).

Python strings become `String`; the external PipeWire graph manager
(`pw-dump` / `pw-cli`) becomes an explicit environment value holding the
parsed dump objects, the parsed link list, and the exit codes the two
mutation commands would return.  Substring tests (`x in s`) and
suffix tests (`s.endswith(t)`) are modelled by executable character-list
functions below.
-/

namespace SteamAudioIsolator

/-- `segStartsAt needle hay` is true when `needle` is an initial run of `hay`
(character-by-character comparison). -/
def segStartsAt : List Char → List Char → Bool
  | [], _ => true
  | _ :: _, [] => false
  | a :: n, b :: h => a == b && segStartsAt n h

/-- `hasSeg needle hay` models Python `needle in hay` on strings: `needle`
occurs contiguously somewhere in `hay`. -/
def hasSeg (needle : List Char) : List Char → Bool
  | [] => needle.isEmpty
  | c :: t => segStartsAt needle (c :: t) || hasSeg needle t

/-- Python `needle in hay` for `String`. -/
def strContains (hay needle : String) : Bool :=
  hasSeg needle.data hay.data

/-- Python `str.lower()` (character-wise). -/
def strLower (s : String) : String :=
  ⟨s.data.map Char.toLower⟩

/-- Python `any(x in hay for x in needles)`. -/
def containsAny (hay : String) (needles : List String) : Bool :=
  needles.any (fun n => strContains hay n)

/-- Python `s.endswith(suffixTuple)` for one candidate. -/
def strEndsWith (s suf : String) : Bool :=
  segStartsAt suf.data.reverse s.data.reverse

/-- Python `s.endswith((t1, ..., tn))`. -/
def endsWithAny (s : String) (sufs : List String) : Bool :=
  sufs.any (fun suf => strEndsWith s suf)

/-!
## Node classifier (`source_detector.py`, `_determine_source_type`)

The Python function reads four string properties with `props.get(key, '')`:
`application.name`, `application.process.binary`, `node.name`, `media.role`
(it also reads `application.process.id` but never uses it).  A property
mapping is therefore embedded as a structure of those four strings, a
missing key being the empty string.
-/

structure NodeProps where
  appName : String := ""
  appBinary : String := ""
  nodeName : String := ""
  mediaRole : String := ""
deriving DecidableEq, Repr

/-- Rule 1 of `_determine_source_type`: Wine/Proton executables —
`any(x in app_binary for x in ['wine', 'proton', '.exe'])` on the lowered
binary. -/
def ruleCompatBinary (p : NodeProps) : Bool :=
  containsAny (strLower p.appBinary) ["wine", "proton", ".exe"]

/-- Rule 2 guard: Steam runtime containers and launchers. -/
def ruleContainer (p : NodeProps) : Bool :=
  containsAny (strLower p.appBinary)
    ["pressure-vessel", "steam-runtime", "steamwebhelper",
     "gameoverlayui", "reaper", "fossilize"]

/-- Rule 2 inner exclusion: Steam's own helper processes. -/
def ruleContainerHelper (p : NodeProps) : Bool :=
  strContains (strLower p.appBinary) "steamwebhelper" ||
  strContains (strLower p.appBinary) "gameoverlayui"

/-- Rule 4: application-name hints. -/
def ruleNameHint (p : NodeProps) : Bool :=
  containsAny (strLower p.appName) ["game", "proton", "wine"]

/-- Rule 5: native Linux game heuristic (suffix test, nonempty binary,
app-name denylist, game-library path fragment).  In the Python source the
three inner conditions are nested `if`s that fall through to the later
rules when they fail, so the net effect is their conjunction. -/
def ruleNativeGame (p : NodeProps) : Bool :=
  endsWithAny (strLower p.appBinary) [".x86_64", ".x86", ".bin", ".sh"] &&
  strLower p.appBinary != "" &&
  !(containsAny (strLower p.appName)
      ["firefox", "chrome", "code", "electron", "discord",
       "slack", "spotify", "vlc", "mpv"]) &&
  containsAny (strLower p.appBinary)
    ["/steam/", "/steamapps/", "/games/", "/.steam/",
     "/compatdata/", "/shadercache/"]

/-- Rule 6: explicit `media.role` hint. -/
def ruleMediaRole (p : NodeProps) : Bool :=
  strLower p.mediaRole == "game" || strLower p.mediaRole == "production"

/-- Rule 7: browser name keywords. -/
def ruleBrowser (p : NodeProps) : Bool :=
  containsAny (strLower p.appName)
    ["firefox", "chromium", "chrome", "opera", "brave", "edge"]

/-- Rule 8: communication-tool name keywords. -/
def ruleComm (p : NodeProps) : Bool :=
  containsAny (strLower p.appName)
    ["discord", "slack", "zoom", "telegram", "teams", "skype",
     "mumble", "teamspeak"]

/-- Rule 9: low-level audio-subsystem node names. -/
def ruleSystemName (p : NodeProps) : Bool :=
  containsAny (strLower p.nodeName) ["alsa", "jack", "pulse"]

/-- `SourceDetector._determine_source_type`: the ordered classification
ladder, first match wins, defaulting to `"Application"`.  (The source's
step 3 — `'steam' in app_binary and 'game' not in app_binary` — only
executes `pass` and is therefore not represented.) -/
def determine_source_type (p : NodeProps) : String :=
  if ruleCompatBinary p then "Game"
  else if ruleContainer p then
    (if ruleContainerHelper p then "System" else "Game")
  else if ruleNameHint p then "Game"
  else if ruleNativeGame p then "Game"
  else if ruleMediaRole p then "Game"
  else if ruleBrowser p then "Browser"
  else if ruleComm p then "Communication"
  else if ruleSystemName p then "System"
  else "Application"

/-- Disjunction of every guard of the ladder; when this is false the
function reaches its default arm. -/
def matchesAnyRule (p : NodeProps) : Bool :=
  ruleCompatBinary p || ruleContainer p || ruleNameHint p ||
  ruleNativeGame p || ruleMediaRole p || ruleBrowser p ||
  ruleComm p || ruleSystemName p

/-!
## External graph state (`pw-dump` / `pw-cli` world)

`controller.py` shells out to `pw-dump` (a JSON array of objects) and to
`pw-cli list-objects Link` (a text dump it parses into per-link
`output.node` / `input.node` fields).  The embedding replaces both by
already-parsed data carried in an `Env` value, plus two functions giving
the exit code each mutation command would return (`none` models a
timeout / exception, in which case `_run_pw_cli_safe` returns `None`).
-/

/-- One `pw-dump` object, restricted to the fields the controller reads.
Missing properties are the empty string (`props.get(key, '')`), and a
port's `node.id` property is `none` when absent or unparseable (the
Python wraps `int(...)` in `try/except`). -/
structure DumpObj where
  objType : String := ""
  id : Nat := 0
  nodeName : String := ""
  deviceName : String := ""
  nodeDesc : String := ""
  mediaClass : String := ""
  appName : String := ""
  nodeIdProp : Option Nat := none
  portDirection : String := ""
deriving DecidableEq, Repr

/-- One link as parsed from `pw-cli list-objects Link`: the parser
initialises `output_node` / `input_node` to `None` before scanning a
link's block, so they are `Option Nat`. -/
structure PwLink where
  linkId : Nat
  outputNode : Option Nat := none
  inputNode : Option Nat := none
deriving DecidableEq, Repr

/-- The external world a controller call runs against: the dump objects,
the parsed link list, and the exit codes of `pw-cli destroy` /
`pw-cli create-link` (`none` = timeout or exception). -/
structure Env where
  objs : List DumpObj
  links : List PwLink
  destroyCode : Nat → Option Int
  createCode : Nat → Nat → Nat → Nat → Option Int

/-- A mutation issued against the graph manager, in issue order. -/
inductive MutOp where
  | destroy (linkId : Nat)
  | create (srcNode srcPort dstNode dstPort : Nat)
deriving DecidableEq, Repr

/-- `_get_available_ports node_id direction`: ids (in dump order) of the
port objects whose `node.id` property parses to `node_id` and whose
`port.direction` matches. -/
def _get_available_ports (objs : List DumpObj) (nodeId : Nat)
    (direction : String) : List Nat :=
  objs.filterMap (fun o =>
    if o.objType == "PipeWire:Interface:Port" &&
       o.nodeIdProp == some nodeId && o.portDirection == direction
    then some o.id else none)

/-- `create_audio_routing`, sink-detection step: the first node object
whose `node.name` contains `alsa_output` and `analog-stereo`
(case-sensitive, as in the source). -/
def findAudioSink (objs : List DumpObj) : Option Nat :=
  (objs.find? (fun o =>
    o.objType == "PipeWire:Interface:Node" &&
    strContains o.nodeName "alsa_output" &&
    strContains o.nodeName "analog-stereo")).map (fun o => o.id)

/-- The per-link removal decision of `create_audio_routing`:
case 1 — `audio_sink_id` is truthy, the link's output node is the sink and
its input node is the target; case 2 — the output node is a selected
source and the input node is the target.  (The streaming parser checks
each parsed link exactly once, in order.) -/
def markForRemoval (sink : Option Nat) (sourceIds : List Nat) (target : Nat)
    (l : PwLink) : Bool :=
  (match sink with
   | some s => (s != 0) && l.outputNode == some s && l.inputNode == some target
   | none => false) ||
  ((match l.outputNode with
    | some o => sourceIds.contains o
    | none => false) && l.inputNode == some target)

/-- The removal set (`routes_to_remove`) accumulated while scanning the
link dump, in scan order. -/
def routesToRemove (sink : Option Nat) (sourceIds : List Nat) (target : Nat)
    (links : List PwLink) : List Nat :=
  (links.filter (markForRemoval sink sourceIds target)).map (fun l => l.linkId)

/-- Bluetooth / wireless-headset marker checks of the validation loop:
`bluez`/`bluetooth`/`bt_`/`hci` in the lowered `node.name` or
`device.name`, or `bluetooth`/`headset`/`earbuds`/`airpods` in the
lowered `node.description`. -/
def hasBluetoothMarker (o : DumpObj) : Bool :=
  containsAny (strLower o.nodeName) ["bluez", "bluetooth", "bt_", "hci"] ||
  containsAny (strLower o.deviceName) ["bluez", "bluetooth", "bt_", "hci"] ||
  containsAny (strLower o.nodeDesc) ["bluetooth", "headset", "earbuds", "airpods"]

/-- Audio-sink check of the validation loop: `alsa_output` in the lowered
`node.name`, or `Audio/Sink` (case-sensitive) in `media.class`. -/
def isAudioSinkNode (o : DumpObj) : Bool :=
  strContains (strLower o.nodeName) "alsa_output" ||
  strContains o.mediaClass "Audio/Sink"

/-- A dump object that survives every `continue` of the validation loop. -/
def isValidSourceObj (o : DumpObj) : Bool :=
  !hasBluetoothMarker o && !isAudioSinkNode o

/-- Whether `source_id` ends up in `valid_source_ids`: the loop scans the
whole dump (note: it matches on the object id only, with no type check)
and appends the id as soon as some object with that id passes all the
marker checks. -/
def isValidatedSource (objs : List DumpObj) (sourceId : Nat) : Bool :=
  objs.any (fun o => o.id == sourceId && isValidSourceObj o)

/-- Per-source outcome of the link-creation loop: `none` output ports or
`none` target input ports puts the source on the `failed` list with no
mutation issued; otherwise one `create-link` per positional channel pair
is issued and the source counts as connected iff at least one of them
returned exit code 0 (`source_connected`). -/
def sourceOutcome (env : Env) (target : Nat) (sourceId : Nat) :
    Bool × List MutOp :=
  let sp := _get_available_ports env.objs sourceId "out"
  let tp := _get_available_ports env.objs target "in"
  if sp.isEmpty then (false, [])
  else if tp.isEmpty then (false, [])
  else
    let num := min sp.length tp.length
    let ops := (List.range num).map (fun i =>
      MutOp.create sourceId (sp.getD i 0) target (tp.getD i 0))
    let conn := (List.range num).any (fun i =>
      env.createCode sourceId (sp.getD i 0) target (tp.getD i 0) == some 0)
    (conn, ops)

/-- Result of `create_audio_routing` / `reconnect_sink_to_steam`:
the Python `(success, message)` pair, extended with the ordered trace of
mutations issued against the graph manager. -/
structure RoutingResult where
  ok : Bool
  msg : String
  trace : List MutOp
deriving Repr

/-- `PipeWireController.create_audio_routing source_ids target`:
1. truthiness check of the target id (`if not target_node_id`);
2. sink detection, removal-set computation and `pw-cli destroy` of each
   entry (destroy failures are only logged — they affect neither the
   result nor control flow);
3. validation filter over the candidate sources, failing with the
   `No valid audio sources` message when it empties the list;
4. per-source channel-link creation; `failed` collects the sources with
   missing ports or with no successfully created channel, and the final
   success flag is `len(failed) == 0`. -/
def create_audio_routing (env : Env) (sourceIds : List Nat)
    (target : Option Nat) : RoutingResult :=
  match target with
  | none => ⟨false, "Steam node ID not set - is Steam running?", []⟩
  | some t =>
    if t == 0 then ⟨false, "Steam node ID not set - is Steam running?", []⟩
    else
      let sink := findAudioSink env.objs
      let toRemove := routesToRemove sink sourceIds t env.links
      let removeOps := toRemove.map MutOp.destroy
      let valid := sourceIds.filter (isValidatedSource env.objs)
      if valid.isEmpty then
        ⟨false, "No valid audio sources to route (all sources were filtered out)",
         removeOps⟩
      else
        let results := valid.map (fun sid => sourceOutcome env t sid)
        let createOps := (results.map (fun r => r.2)).flatten
        let connectedCount := (results.filter (fun r => r.1)).length
        let failedCount := (results.filter (fun r => !r.1)).length
        let msg :=
          "Removed " ++ toString toRemove.length ++
          " existing route(s), connected " ++ toString connectedCount ++
          " source(s)" ++
          (if failedCount != 0
           then " (" ++ toString failedCount ++ " failed)" else "")
        ⟨failedCount == 0, msg, removeOps ++ createOps⟩

/-- `PipeWireController.remove_routing link_id`: runs
`pw-cli destroy link_id` and returns `returncode == 0`; a timeout or
exception returns `False`.  The function never inspects the link list. -/
def remove_routing (env : Env) (linkId : Nat) : Bool :=
  match env.destroyCode linkId with
  | some c => c == 0
  | none => false

/-!
## `reconnect_sink_to_steam` (restore-default sink selection)
-/

/-- A dump object the reconnect loop processes at all: a node whose
`media.class` contains `Audio/Sink` (case-sensitive). -/
def isSinkObj (o : DumpObj) : Bool :=
  o.objType == "PipeWire:Interface:Node" &&
  strContains o.mediaClass "Audio/Sink"

/-- GPU/HDMI marker test on the lowered `node.name`. -/
def sinkIsGpu (name : String) : Bool :=
  containsAny (strLower name)
    ["navi", "nvidia", "hdmi", "gpu", "displayport", "dp-"]

/-- Virtual-sink marker test on the lowered `node.name`. -/
def sinkIsVirtual (name : String) : Bool :=
  containsAny (strLower name) ["echo-cancel", "dummy", "freewheel"]

/-- Analog/stereo label test: `'Analog' in node_name or 'Stereo' in
node_name`, case-sensitive on the raw name. -/
def sinkIsAnalog (name : String) : Bool :=
  strContains name "Analog" || strContains name "Stereo"

/-- One step of the categorisation loop: virtual sinks are skipped,
then `elif is_gpu`, `elif is_analog`, `else` other — so a GPU-marked
sink lands in the GPU bucket even when its name also says
Analog/Stereo. -/
def categorizeStep (acc : List (Nat × String) × List (Nat × String) × List (Nat × String))
    (o : DumpObj) :
    List (Nat × String) × List (Nat × String) × List (Nat × String) :=
  if !isSinkObj o then acc
  else if sinkIsVirtual o.nodeName then acc
  else if sinkIsGpu o.nodeName then (acc.1, acc.2.1, acc.2.2 ++ [(o.id, o.nodeName)])
  else if sinkIsAnalog o.nodeName then (acc.1 ++ [(o.id, o.nodeName)], acc.2.1, acc.2.2)
  else (acc.1, acc.2.1 ++ [(o.id, o.nodeName)], acc.2.2)

/-- The three buckets `(analog_sinks, other_sinks, gpu_sinks)` built in
dump order. -/
def categorizeSinks (objs : List DumpObj) :
    List (Nat × String) × List (Nat × String) × List (Nat × String) :=
  objs.foldl categorizeStep ([], [], [])

/-- Sink choice of `reconnect_sink_to_steam`: `analog_sinks[0]`, else
`other_sinks[0]`, else `gpu_sinks[0]`, else none. -/
def selectSink (objs : List DumpObj) : Option (Nat × String) :=
  let buckets := categorizeSinks objs
  (buckets.1.head?).orElse (fun _ => (buckets.2.1.head?).orElse (fun _ => buckets.2.2.head?))

/-- `PipeWireController.reconnect_sink_to_steam`, with the Steam node id
(`self.steam_node_id`) passed explicitly: selects a sink, applies the
truthiness checks on the sink and Steam ids, discovers ports, then
creates one link per positional channel pair and succeeds iff
`connected > 0`. -/
def reconnect_sink_to_steam (env : Env) (steamId : Option Nat) :
    Bool × String :=
  match selectSink env.objs with
  | none => (false, "No audio sink found in system")
  | some (sinkId, sinkName) =>
    if sinkId == 0 then (false, "No audio sink found in system")
    else
      match steamId with
      | none => (false, "Steam recording node not found")
      | some st =>
        if st == 0 then (false, "Steam recording node not found")
        else
          let sp := _get_available_ports env.objs sinkId "out"
          let tp := _get_available_ports env.objs st "in"
          if sp.isEmpty || tp.isEmpty then
            (false, "Could not find audio ports for sink or Steam")
          else
            let num := min sp.length tp.length
            let connected := (List.range num).countP (fun i =>
              env.createCode sinkId (sp.getD i 0) st (tp.getD i 0) == some 0)
            if connected > 0 then
              (true, "Sink reconnected: " ++ sinkName ++ " (" ++
                toString connected ++ " channel(s))")
            else (false, "Failed to create sink links")

/-!
## Theorems
-/

/-- C7: rule ordering resolves conflicts in favour of earlier rules: any
property mapping with a compatibility-layer binary marker
(wine/proton/.exe in the process binary) and a browser name keyword in
the application name classifies as `Game`, because the
compatibility-layer rule is evaluated before the browser rule. -/
theorem classifier_compat_beats_browser (p : NodeProps)
    (hb : ruleCompatBinary p = true) (hn : ruleBrowser p = true) :
    determine_source_type p = "Game" := by
  simp [determine_source_type, hb]

/-- Witness for `classifier_compat_beats_browser`: a Proton game whose
application name also mentions a browser keyword. -/
theorem classifier_compat_beats_browser_witness :
    ruleCompatBinary { appName := "firefox helper", appBinary := "/opt/wine64/proton" } = true ∧
    ruleBrowser { appName := "firefox helper", appBinary := "/opt/wine64/proton" } = true ∧
    determine_source_type { appName := "firefox helper", appBinary := "/opt/wine64/proton" } = "Game" :=
  ⟨by decide, by decide,
   classifier_compat_beats_browser
     { appName := "firefox helper", appBinary := "/opt/wine64/proton" }
     (by decide) (by decide)⟩

/-- C8: the classifier is total over all property mappings: it always
returns one of the five role strings, and when no rule of the ladder
matches it returns the default role `Application`. -/
theorem classifier_total (p : NodeProps) :
    (determine_source_type p = "Game" ∨ determine_source_type p = "System" ∨
     determine_source_type p = "Browser" ∨
     determine_source_type p = "Communication" ∨
     determine_source_type p = "Application")
    ∧ (matchesAnyRule p = false → determine_source_type p = "Application") := by
  constructor
  · unfold determine_source_type
    repeat' split
    all_goals simp
  · intro h
    simp only [matchesAnyRule, Bool.or_eq_false_iff] at h
    obtain ⟨⟨⟨⟨⟨⟨⟨h1, h2⟩, h3⟩, h4⟩, h5⟩, h6⟩, h7⟩, h8⟩ := h
    simp [determine_source_type, h1, h2, h3, h4, h5, h6, h7, h8]

/-- Witness for `classifier_total`: the empty property mapping matches no
rule and classifies as `Application`. -/
theorem classifier_total_witness :
    matchesAnyRule {} = false ∧ determine_source_type {} = "Application" :=
  ⟨by decide, (classifier_total {}).2 (by decide)⟩

/-- C5: with no resolvable recording target (`target_node_id` unset),
`create_audio_routing` returns the failure message immediately and issues
zero mutations against the graph manager. -/
theorem apply_routing_no_target (env : Env) (sourceIds : List Nat) :
    create_audio_routing env sourceIds none =
      ⟨false, "Steam node ID not set - is Steam running?", []⟩ := rfl

/-- C3 (amended): `remove_routing` succeeds exactly when the underlying
`pw-cli destroy` exits with code 0; it never inspects the link list, so
whether the link still exists plays no role in the result. -/
theorem remove_routing_exit_code (env : Env) (linkId : Nat) :
    (remove_routing env linkId = true ↔ env.destroyCode linkId = some 0)
    ∧ (∀ env' : Env, env'.destroyCode = env.destroyCode →
        remove_routing env' linkId = remove_routing env linkId) := by
  constructor
  · unfold remove_routing
    cases h : env.destroyCode linkId with
    | none => simp
    | some c => simp
  · intro env' he
    unfold remove_routing
    rw [he]

/-- Environment for the C3 counterexample: the graph holds no links at
all and `pw-cli destroy` exits with code 1 (object not found). -/
def envLinkGone : Env :=
  { objs := [], links := [],
    destroyCode := fun _ => some 1,
    createCode := fun _ _ _ _ => some 1 }

/-- C3 counterexample: link 5 does not exist in the graph, the destroy
command reports failure (exit code 1), and `remove_routing` returns
`false` — not the success the claim asserts for an already-gone link. -/
theorem remove_routing_not_found_cex :
    envLinkGone.links = [] ∧ envLinkGone.destroyCode 5 = some 1 ∧
    remove_routing envLinkGone 5 = false :=
  ⟨rfl, rfl, rfl⟩

/-- Witness for `remove_routing_exit_code`: a destroy that exits 0 is
reported as success, and the result only depends on the exit-code
function. -/
theorem remove_routing_exit_code_witness :
    remove_routing { objs := [], links := [],
                     destroyCode := fun _ => some 0,
                     createCode := fun _ _ _ _ => some 0 } 5 = true ∧
    remove_routing { objs := [⟨"x", 1, "", "", "", "", "", none, ""⟩], links := [],
                     destroyCode := fun _ => some 0,
                     createCode := fun _ _ _ _ => some 0 } 5 =
      remove_routing { objs := [], links := [],
                       destroyCode := fun _ => some 0,
                       createCode := fun _ _ _ _ => some 0 } 5 :=
  ⟨(remove_routing_exit_code
      { objs := [], links := [],
        destroyCode := fun _ => some 0,
        createCode := fun _ _ _ _ => some 0 } 5).1.mpr rfl,
   (remove_routing_exit_code
      { objs := [], links := [],
        destroyCode := fun _ => some 0,
        createCode := fun _ _ _ _ => some 0 } 5).2
     { objs := [⟨"x", 1, "", "", "", "", "", none, ""⟩], links := [],
       destroyCode := fun _ => some 0,
       createCode := fun _ _ _ _ => some 0 } rfl⟩

/-- Characterisation of the per-link removal decision: a link is marked
exactly when its input node is the recording target and its output node
is either the detected (truthy) hardware sink or a selected source. -/
lemma markForRemoval_iff (sink : Option Nat) (sourceIds : List Nat)
    (t : Nat) (l : PwLink) :
    markForRemoval sink sourceIds t l = true ↔
      l.inputNode = some t ∧
      ((∃ s, sink = some s ∧ s ≠ 0 ∧ l.outputNode = some s) ∨
       (∃ o, l.outputNode = some o ∧ o ∈ sourceIds)) := by
  unfold markForRemoval
  cases sink <;> cases ho : l.outputNode <;>
    simp [List.contains, List.elem_iff, bne_iff_ne, ho] <;>
    aesop

/-- C1: every id in the removal set computed by `create_audio_routing`
belongs to a link whose input node is the recording target (and whose
output node is the hardware sink or a selected source); and a link whose
input node is anything other than the target — in particular a selected
source → hardware-sink speaker link — is never marked for removal. -/
theorem removal_set_only_target_links (sink : Option Nat)
    (sourceIds : List Nat) (t : Nat) (links : List PwLink) :
    (∀ lid ∈ routesToRemove sink sourceIds t links,
       ∃ l ∈ links, l.linkId = lid ∧ l.inputNode = some t ∧
         ((∃ s, sink = some s ∧ s ≠ 0 ∧ l.outputNode = some s) ∨
          (∃ o, l.outputNode = some o ∧ o ∈ sourceIds)))
    ∧ (∀ l : PwLink, ∀ s : Nat, l.inputNode = some s → s ≠ t →
        markForRemoval sink sourceIds t l = false) := by
  constructor
  · intro lid h
    unfold routesToRemove at h
    rw [List.mem_map] at h
    obtain ⟨l, hl, rfl⟩ := h
    rw [List.mem_filter] at hl
    obtain ⟨hmem, hmark⟩ := hl
    rw [markForRemoval_iff] at hmark
    exact ⟨l, hmem, rfl, hmark.1, hmark.2⟩
  · intro l s hin hne
    rw [← Bool.not_eq_true, markForRemoval_iff]
    intro hmark
    rw [hin] at hmark
    exact hne (Option.some.inj hmark.1)

/-- Witness for `removal_set_only_target_links`: with sink 20, selection
`[10]` and target 30, the sink→target link 5 is in the removal set and is
certified to target node 30, while the game→speaker link `10 → 20` is
not marked. -/
theorem removal_set_only_target_links_witness :
    (∃ l ∈ [(⟨5, some 20, some 30⟩ : PwLink), ⟨6, some 10, some 20⟩],
       l.linkId = 5 ∧ l.inputNode = some 30 ∧
         ((∃ s, (some 20 : Option Nat) = some s ∧ s ≠ 0 ∧ l.outputNode = some s) ∨
          (∃ o, l.outputNode = some o ∧ o ∈ [10]))) ∧
    markForRemoval (some 20) [10] 30 ⟨6, some 10, some 20⟩ = false :=
  ⟨(removal_set_only_target_links (some 20) [10] 30
      [⟨5, some 20, some 30⟩, ⟨6, some 10, some 20⟩]).1 5 (by decide),
   (removal_set_only_target_links (some 20) [10] 30
      [⟨5, some 20, some 30⟩, ⟨6, some 10, some 20⟩]).2
     ⟨6, some 10, some 20⟩ 20 rfl (by decide)⟩

/-- Every mutation the per-source creation loop issues is a
`create-link`. -/
lemma sourceOutcome_ops_create (env : Env) (t sid : Nat) :
    ∀ op ∈ (sourceOutcome env t sid).2, ∃ a b c d, op = MutOp.create a b c d := by
  intro op h
  simp only [sourceOutcome] at h
  split at h
  · simp at h
  · split at h
    · simp at h
    · rw [List.mem_map] at h
      obtain ⟨i, -, rfl⟩ := h
      exact ⟨_, _, _, _, rfl⟩

/-- C6: the mutation trace of one `create_audio_routing` call splits into
a block of destroy operations followed by a block of create-link
operations — every removal is issued before any creation. -/
theorem removals_before_creations (env : Env) (sourceIds : List Nat)
    (target : Option Nat) :
    ∃ ds cs, (create_audio_routing env sourceIds target).trace = ds ++ cs ∧
      (∀ op ∈ ds, ∃ lid, op = MutOp.destroy lid) ∧
      (∀ op ∈ cs, ∃ a b c d, op = MutOp.create a b c d) := by
  have hdestroy : ∀ (lids : List Nat), ∀ op ∈ lids.map MutOp.destroy,
      ∃ lid, op = MutOp.destroy lid := by
    intro lids op h
    rw [List.mem_map] at h
    obtain ⟨lid, -, rfl⟩ := h
    exact ⟨lid, rfl⟩
  cases target with
  | none => exact ⟨[], [], rfl, by simp, by simp⟩
  | some t =>
    by_cases ht : t = 0
    · refine ⟨[], [], ?_, by simp, by simp⟩
      simp [create_audio_routing, ht]
    · by_cases hv : sourceIds.filter (isValidatedSource env.objs) = []
      · refine ⟨(routesToRemove (findAudioSink env.objs) sourceIds t env.links).map
            MutOp.destroy, [], ?_, hdestroy _, by simp⟩
        simp [create_audio_routing, ht, hv]
      · refine ⟨(routesToRemove (findAudioSink env.objs) sourceIds t env.links).map
            MutOp.destroy,
          ((((sourceIds.filter (isValidatedSource env.objs)).map
              (fun sid => sourceOutcome env t sid)).map (fun r => r.2)).flatten),
          ?_, hdestroy _, ?_⟩
        · simp [create_audio_routing, ht, hv]
        · intro op h
          rw [List.mem_flatten] at h
          obtain ⟨ops, hops, hop⟩ := h
          rw [List.mem_map] at hops
          obtain ⟨r, hr, rfl⟩ := hops
          rw [List.mem_map] at hr
          obtain ⟨sid, -, rfl⟩ := hr
          exact sourceOutcome_ops_create env t sid op hop

/-- Witness for `removals_before_creations` at a concrete environment
with one validated source. -/
theorem removals_before_creations_witness :
    ∃ ds cs,
      (create_audio_routing
        { objs := [{ objType := "PipeWire:Interface:Node", id := 10,
                     nodeName := "game_stream", appName := "MyGame" }],
          links := [⟨5, some 20, some 30⟩],
          destroyCode := fun _ => some 0,
          createCode := fun _ _ _ _ => some 0 } [10] (some 30)).trace =
        ds ++ cs ∧
      (∀ op ∈ ds, ∃ lid, op = MutOp.destroy lid) ∧
      (∀ op ∈ cs, ∃ a b c d, op = MutOp.create a b c d) :=
  removals_before_creations
    { objs := [{ objType := "PipeWire:Interface:Node", id := 10,
                 nodeName := "game_stream", appName := "MyGame" }],
      links := [⟨5, some 20, some 30⟩],
      destroyCode := fun _ => some 0,
      createCode := fun _ _ _ _ => some 0 } [10] (some 30)

/-- C4: (1) a candidate id all of whose dump objects carry a
Bluetooth/wireless-headset marker or are audio sinks — in particular an
id with no object at all in the dump — never survives validation;
(2) if validation empties the candidate list, `create_audio_routing`
fails with the no-valid-sources message and its trace contains no
`create-link` call. -/
theorem validation_filters_and_fails_fast (env : Env) (sourceIds : List Nat)
    (t : Nat) :
    (∀ sid : Nat,
       (∀ o ∈ env.objs, o.id = sid →
          hasBluetoothMarker o = true ∨ isAudioSinkNode o = true) →
       sid ∉ sourceIds.filter (isValidatedSource env.objs))
    ∧ (t ≠ 0 → sourceIds.filter (isValidatedSource env.objs) = [] →
        (create_audio_routing env sourceIds (some t)).ok = false ∧
        (create_audio_routing env sourceIds (some t)).msg =
          "No valid audio sources to route (all sources were filtered out)" ∧
        ∀ op ∈ (create_audio_routing env sourceIds (some t)).trace,
          ∃ lid, op = MutOp.destroy lid) := by
  constructor
  · intro sid hall hmem
    rw [List.mem_filter] at hmem
    obtain ⟨-, hval⟩ := hmem
    unfold isValidatedSource at hval
    rw [List.any_eq_true] at hval
    obtain ⟨o, ho, hq⟩ := hval
    rw [Bool.and_eq_true, beq_iff_eq] at hq
    obtain ⟨hid, hgood⟩ := hq
    unfold isValidSourceObj at hgood
    rcases hall o ho hid with hbad | hbad <;>
      rw [hbad] at hgood <;> simp at hgood
  · intro ht hempty
    have heq : create_audio_routing env sourceIds (some t) =
        ⟨false,
         "No valid audio sources to route (all sources were filtered out)",
         (routesToRemove (findAudioSink env.objs) sourceIds t env.links).map
           MutOp.destroy⟩ := by
      simp [create_audio_routing, ht, hempty]
    rw [heq]
    refine ⟨rfl, rfl, ?_⟩
    intro op h
    rw [List.mem_map] at h
    obtain ⟨lid, -, rfl⟩ := h
    exact ⟨lid, rfl⟩

/-- Environment for the C4 witness: a Bluetooth-marked node (id 10) and a
legitimate game stream (id 11). -/
def envBtGame : Env :=
  { objs := [{ objType := "PipeWire:Interface:Node", id := 10,
               nodeName := "bluez_output.aa_bb.1" },
             { objType := "PipeWire:Interface:Node", id := 11,
               nodeName := "game_stream", appName := "MyGame" }],
    links := [], destroyCode := fun _ => some 0,
    createCode := fun _ _ _ _ => some 0 }

/-- Witness for `validation_filters_and_fails_fast`: from the candidate
list `[10, 11]` the Bluetooth node 10 is dropped while the game node 11
survives, and routing with the Bluetooth id alone fails. -/
theorem validation_filters_and_fails_fast_witness :
    (10 : Nat) ∉ [10, 11].filter (isValidatedSource envBtGame.objs) ∧
    (11 : Nat) ∈ [10, 11].filter (isValidatedSource envBtGame.objs) ∧
    (create_audio_routing envBtGame [10] (some 30)).ok = false :=
  ⟨(validation_filters_and_fails_fast envBtGame [10, 11] 30).1 10 (by decide),
   by decide,
   ((validation_filters_and_fails_fast envBtGame [10] 30).2
      (by decide) (by decide)).1⟩

/-- C2 (amended): with a truthy target and a non-empty validated source
list, `create_audio_routing` reports success exactly when every validated
source counted as connected — i.e. had ports on both sides and at least
one successfully created channel link.  A source with some failed and
some successful channels still counts as connected. -/
theorem apply_routing_ok_iff_each_source_connected (env : Env)
    (sourceIds : List Nat) (t : Nat) (ht : t ≠ 0)
    (hv : sourceIds.filter (isValidatedSource env.objs) ≠ []) :
    (create_audio_routing env sourceIds (some t)).ok = true ↔
      ∀ sid ∈ sourceIds.filter (isValidatedSource env.objs),
        (sourceOutcome env t sid).1 = true := by
  have heq : (create_audio_routing env sourceIds (some t)).ok =
      ((((sourceIds.filter (isValidatedSource env.objs)).map
          (fun sid => sourceOutcome env t sid)).filter
          (fun r => !r.1)).length == 0) := by
    simp [create_audio_routing, ht, hv]
  rw [heq, beq_iff_eq, List.length_eq_zero, List.filter_eq_nil_iff]
  constructor
  · intro h sid hsid
    have := h (sourceOutcome env t sid) (List.mem_map.mpr ⟨sid, hsid, rfl⟩)
    simpa using this
  · intro h r hr
    rw [List.mem_map] at hr
    obtain ⟨sid, hsid, rfl⟩ := hr
    simpa using h sid hsid

/-- Environment for C2: one valid source (node 10) with two output
ports; the target (30) has two input ports; the first `create-link`
succeeds and the second fails. -/
def envPartial : Env :=
  { objs := [{ objType := "PipeWire:Interface:Node", id := 10,
               nodeName := "game_stream", appName := "MyGame" },
             { objType := "PipeWire:Interface:Port", id := 100,
               nodeIdProp := some 10, portDirection := "out" },
             { objType := "PipeWire:Interface:Port", id := 101,
               nodeIdProp := some 10, portDirection := "out" },
             { objType := "PipeWire:Interface:Port", id := 200,
               nodeIdProp := some 30, portDirection := "in" },
             { objType := "PipeWire:Interface:Port", id := 201,
               nodeIdProp := some 30, portDirection := "in" }],
    links := [],
    destroyCode := fun _ => some 0,
    createCode := fun _ srcPort _ _ => if srcPort == 100 then some 0 else some 1 }

/-- C2 counterexample: source 10 is validated, its second channel link
(`10:101 → 30:201`) is issued and fails with exit code 1, yet the overall
result is `ok = true` — partial channel failure does not make the
operation fail, contrary to the claim. -/
theorem apply_routing_partial_failure_cex :
    (10 : Nat) ∈ [10].filter (isValidatedSource envPartial.objs) ∧
    MutOp.create 10 101 30 201 ∈
      (create_audio_routing envPartial [10] (some 30)).trace ∧
    envPartial.createCode 10 101 30 201 = some 1 ∧
    (create_audio_routing envPartial [10] (some 30)).ok = true :=
  ⟨by decide, by decide, rfl, by decide⟩

/-- Witness for `apply_routing_ok_iff_each_source_connected` at the
concrete partial-failure environment. -/
theorem apply_routing_ok_iff_each_source_connected_witness :
    (30 : Nat) ≠ 0 ∧
    [10].filter (isValidatedSource envPartial.objs) ≠ [] ∧
    ((create_audio_routing envPartial [10] (some 30)).ok = true ↔
      ∀ sid ∈ [10].filter (isValidatedSource envPartial.objs),
        (sourceOutcome envPartial 30 sid).1 = true) :=
  ⟨by decide, by decide,
   apply_routing_ok_iff_each_source_connected envPartial [10] 30
     (by decide) (by decide)⟩

/-- C10: with a selected sink, a truthy Steam id and ports on both
sides, `reconnect_sink_to_steam` reports success exactly when at least
one positional channel link was created — per-channel partial failure is
not an overall failure for this operation. -/
theorem restore_ok_iff_any_channel (env : Env) (st : Nat) (hst : st ≠ 0)
    (sinkId : Nat) (sinkName : String)
    (hsel : selectSink env.objs = some (sinkId, sinkName)) (hsid : sinkId ≠ 0)
    (hsp : _get_available_ports env.objs sinkId "out" ≠ [])
    (htp : _get_available_ports env.objs st "in" ≠ []) :
    (reconnect_sink_to_steam env (some st)).1 = true ↔
      ∃ i < min (_get_available_ports env.objs sinkId "out").length
                (_get_available_ports env.objs st "in").length,
        env.createCode sinkId
            ((_get_available_ports env.objs sinkId "out").getD i 0)
            st ((_get_available_ports env.objs st "in").getD i 0) = some 0 := by
  have h0 : (sinkId == 0) = false := by simp [hsid]
  have h0' : (st == 0) = false := by simp [hst]
  have hemp : ((_get_available_ports env.objs sinkId "out").isEmpty ||
      (_get_available_ports env.objs st "in").isEmpty) = false := by
    simp [List.isEmpty_iff, hsp, htp]
  simp only [reconnect_sink_to_steam, hsel, h0, h0', hemp, Bool.false_eq_true,
    if_false]
  split
  case isTrue h =>
    rw [gt_iff_lt, List.countP_pos_iff] at h
    obtain ⟨i, hi, hp⟩ := h
    rw [List.mem_range] at hi
    simp only [beq_iff_eq] at hp
    exact iff_of_true rfl ⟨i, hi, hp⟩
  case isFalse h =>
    rw [gt_iff_lt, List.countP_pos_iff] at h
    constructor
    · intro hfalse
      exact absurd hfalse (by simp)
    · rintro ⟨i, hi, hp⟩
      refine absurd ⟨i, List.mem_range.mpr hi, ?_⟩ h
      simp only [beq_iff_eq]
      exact hp

/-- Environment for C10: one analog sink (node 5) with two output ports,
Steam node 9 with two input ports; channel 0 succeeds, channel 1 fails. -/
def envRestore : Env :=
  { objs := [{ objType := "PipeWire:Interface:Node", id := 5,
               nodeName := "Speakers Analog Stereo",
               mediaClass := "Audio/Sink" },
             { objType := "PipeWire:Interface:Port", id := 100,
               nodeIdProp := some 5, portDirection := "out" },
             { objType := "PipeWire:Interface:Port", id := 101,
               nodeIdProp := some 5, portDirection := "out" },
             { objType := "PipeWire:Interface:Port", id := 200,
               nodeIdProp := some 9, portDirection := "in" },
             { objType := "PipeWire:Interface:Port", id := 201,
               nodeIdProp := some 9, portDirection := "in" }],
    links := [],
    destroyCode := fun _ => some 0,
    createCode := fun _ srcPort _ _ => if srcPort == 100 then some 0 else some 1 }

/-- Witness for `restore_ok_iff_any_channel`: one of two channels fails,
the other succeeds, and the operation still reports success. -/
theorem restore_ok_iff_any_channel_witness :
    selectSink envRestore.objs = some (5, "Speakers Analog Stereo") ∧
    envRestore.createCode 5 101 9 201 = some 1 ∧
    (reconnect_sink_to_steam envRestore (some 9)).1 = true :=
  ⟨by decide, rfl,
   (restore_ok_iff_any_channel envRestore 9 (by decide) 5
      "Speakers Analog Stereo" (by decide) (by decide) (by decide)
      (by decide)).mpr ⟨0, by decide, by decide⟩⟩

/-- The display entry `(id, node_name)` a categorised sink contributes. -/
def entryOf (o : DumpObj) : Nat × String := (o.id, o.nodeName)

/-- Sinks that land in `analog_sinks`: non-virtual, non-GPU, with an
Analog/Stereo label. -/
def catAnalog (o : DumpObj) : Bool :=
  isSinkObj o && !sinkIsVirtual o.nodeName && !sinkIsGpu o.nodeName &&
  sinkIsAnalog o.nodeName

/-- Sinks that land in `other_sinks`: non-virtual, non-GPU, unlabeled. -/
def catOther (o : DumpObj) : Bool :=
  isSinkObj o && !sinkIsVirtual o.nodeName && !sinkIsGpu o.nodeName &&
  !sinkIsAnalog o.nodeName

/-- Sinks that land in `gpu_sinks`: non-virtual with a GPU marker —
regardless of any Analog/Stereo label, because the GPU test is the
earlier `elif`. -/
def catGpu (o : DumpObj) : Bool :=
  isSinkObj o && !sinkIsVirtual o.nodeName && sinkIsGpu o.nodeName

/-- The categorisation loop, from any starting accumulators, appends
exactly the filtered-and-mapped entries of each category. -/
lemma categorizeSinks_eq_filters (objs : List DumpObj)
    (a o g : List (Nat × String)) :
    objs.foldl categorizeStep (a, o, g) =
      (a ++ (objs.filter catAnalog).map entryOf,
       o ++ (objs.filter catOther).map entryOf,
       g ++ (objs.filter catGpu).map entryOf) := by
  induction objs generalizing a o g with
  | nil => simp
  | cons x xs ih =>
    rw [List.foldl_cons, ih]
    unfold categorizeStep catAnalog catOther catGpu
    by_cases hS : isSinkObj x <;> by_cases hV : sinkIsVirtual x.nodeName <;>
      by_cases hG : sinkIsGpu x.nodeName <;>
      by_cases hA : sinkIsAnalog x.nodeName <;>
      simp [hS, hV, hG, hA, List.filter_cons, entryOf]

/-- C9 (amended): sink selection for restore-default equals the
declarative preference "first non-virtual non-GPU Analog/Stereo-labeled
sink, else first non-virtual non-GPU unlabeled sink, else first
non-virtual GPU sink" — where the virtual markers are exactly
echo-cancel/dummy/freewheel (loopback is not one of them) and a
GPU-marked sink counts as GPU even when its name also says
Analog/Stereo. -/
theorem restore_sink_preference_order (objs : List DumpObj) :
    selectSink objs =
      ((((objs.filter catAnalog).map entryOf).head?).orElse (fun _ =>
        ((((objs.filter catOther).map entryOf).head?).orElse (fun _ =>
          ((objs.filter catGpu).map entryOf).head?)))) := by
  unfold selectSink categorizeSinks
  rw [categorizeSinks_eq_filters objs [] [] []]
  simp

/-- C9 counterexample: in a snapshot holding a Stereo-labeled HDMI sink
(node 1) and an unlabeled USB sink (node 2), the selection skips the
stereo-labeled sink and picks the USB one; and a sink whose name says
`loopback` (node 7) is selected rather than excluded. -/
theorem restore_sink_preference_cex :
    sinkIsAnalog "HDMI Stereo Output" = true ∧
    selectSink
      [{ objType := "PipeWire:Interface:Node", id := 1,
         nodeName := "HDMI Stereo Output", mediaClass := "Audio/Sink" },
       { objType := "PipeWire:Interface:Node", id := 2,
         nodeName := "USB Speakers", mediaClass := "Audio/Sink" }] =
      some (2, "USB Speakers") ∧
    strContains (strLower "my-loopback-sink") "loopback" = true ∧
    selectSink
      [{ objType := "PipeWire:Interface:Node", id := 7,
         nodeName := "my-loopback-sink", mediaClass := "Audio/Sink" }] =
      some (7, "my-loopback-sink") :=
  ⟨by decide, by decide, by decide, by decide⟩

end SteamAudioIsolator
